import Mathlib

/-!
Shallow embedding of the protein-intake calculator in `src/main.py`.

Python floats are modelled as rational numbers (`ℚ`); Python's builtin
`round` (round-half-to-even, "banker's rounding") is modelled by `rnd`;
`round(x, 2)` by `round2`.  Machine strings are Lean `String`s.  The
pydantic request model is embedded as an `Option`-returning smart
constructor (`mkProteinRequest`): `none` models a `ValidationError`.
-/

namespace ProteinApp

/-- Python's builtin `round` on a rational value: round to the nearest
integer, ties to the even integer (round-half-to-even). -/
def rnd (q : ℚ) : ℤ :=
  if q - ⌊q⌋ < 1/2 then ⌊q⌋
  else if 1/2 < q - ⌊q⌋ then ⌊q⌋ + 1
  else if Even ⌊q⌋ then ⌊q⌋ else ⌊q⌋ + 1

/-- Python's `round(x, 2)`: round to the nearest hundredth. -/
def round2 (q : ℚ) : ℚ := (rnd (q * 100) : ℚ) / 100

/-- `_round5` from `src/main.py` line 72: round to the nearest multiple
of 5, `int(round(x / 5.0) * 5)`. -/
def round5 (x : ℚ) : ℤ := rnd (x / 5) * 5

/-- The `unit` literal type of `ProteinRequest` (`"kg" | "lb"`). -/
inductive WeightUnit
  | kg
  | lb
deriving DecidableEq, Repr

/-- The `activity` literal type (`"low" | "moderate" | "high"`). -/
inductive Activity
  | low
  | moderate
  | high
deriving DecidableEq, Repr

/-- The `goal` literal type (`"fat_loss" | "maintenance" | "muscle_gain"`). -/
inductive Goal
  | fat_loss
  | maintenance
  | muscle_gain
deriving DecidableEq, Repr

/-- The `sex` literal type (`"male" | "female" | "other"`). -/
inductive Sex
  | male
  | female
  | other
deriving DecidableEq, Repr

/-- The pydantic `ProteinRequest` model (fields only; the validation
performed by pydantic is embedded in `mkProteinRequest`). -/
structure ProteinRequest where
  weight : ℚ
  unit : WeightUnit
  activity : Activity
  goal : Goal
  age : Option ℤ
  sex : Option Sex
deriving DecidableEq, Repr

/-- The pydantic field bounds on `age`: `ge=10, le=100` (vacuous when
the optional field is absent). -/
def validAge : Option ℤ → Bool
  | none => true
  | some a => decide (10 ≤ a ∧ a ≤ 100)

/-- Construction of a validated `ProteinRequest`: pydantic checks
`weight` with `gt=0` (Field) and the `validate_weight` validator raises
for `weight > 1000`; `age` must lie in `[10, 100]` when present.  The
enum fields are typed, so no further check applies to them.  `none`
models a pydantic `ValidationError`; validation happens on the raw
request, before any unit conversion. -/
def mkProteinRequest (w : ℚ) (u : WeightUnit) (act : Activity) (g : Goal)
    (age : Option ℤ) (sx : Option Sex) : Option ProteinRequest :=
  if 0 < w then
    if w ≤ 1000 then
      if validAge age then some ⟨w, u, act, g, age, sx⟩ else none
    else none
  else none

/-- The `MacroSplit` response model.  The Python `split_percent` dict
`{"protein": p, "carbs": c, "fats": f}` is embedded as the triple
`(p, c, f)`. -/
structure MacroSplit where
  protein_g : ℤ
  carbs_g : ℤ
  fats_g : ℤ
  split_percent : ℤ × ℤ × ℤ
  calories : ℤ
deriving DecidableEq, Repr

/-- The `MealSuggestion` response model. -/
structure MealSuggestion where
  name : String
  tagline : String
  macros : MacroSplit
  sample_meals : List String
deriving DecidableEq, Repr

/-- The `ProteinResponse` model. -/
structure ProteinResponse where
  weight_kg : ℚ
  grams_per_kg_range : ℚ × ℚ
  daily_grams_min : ℤ
  daily_grams_max : ℤ
  daily_grams_target : ℤ
  rationale : String
  suggestions : List MealSuggestion
deriving DecidableEq, Repr

/-- The `base_meals` dict of `_make_plan` (lines 93-118), with the
`.get` fallback list (lines 120-125). -/
def baseMeals (name : String) : List String :=
  if name = "Lifting Beast" then
    ["Breakfast: Greek yogurt parfait + oats + whey",
     "Lunch: Steak bowl with rice, beans, salsa",
     "Snack: Cottage cheese + fruit + almonds",
     "Dinner: Chicken thighs, potatoes, roasted veg"]
  else if name = "Mat Dominator" then
    ["Breakfast: Egg white omelet + spinach + toast",
     "Lunch: Turkey rice bowl + kimchi",
     "Snack: Beef jerky + banana",
     "Dinner: Salmon, quinoa, mixed greens"]
  else if name = "Track Rocket" then
    ["Breakfast: Protein pancakes + berries",
     "Lunch: Teriyaki chicken + jasmine rice",
     "Snack: Low-fat chocolate milk + pretzels",
     "Dinner: Lean beef pasta + tomato sauce"]
  else if name = "Grand Tour Engine" then
    ["Breakfast: Oats + honey + whey + banana",
     "Ride Fuel: Rice cakes + isotonic drink",
     "Lunch: Tuna baguette + fruit",
     "Dinner: Chicken risotto + olive oil drizzle"]
  else
    ["Breakfast: Eggs + oats + fruit",
     "Lunch: Chicken rice bowl",
     "Snack: Yogurt + nuts",
     "Dinner: Fish, potatoes, vegetables"]

/-- `_make_plan` from `src/main.py` lines 76-127.
`total_kcal = (protein_g * 4.0) / (p_pct / 100.0)`,
`carbs_g = total_kcal * (c_pct / 100.0) / 4.0`,
`fats_g = total_kcal * (f_pct / 100.0) / 9.0`. -/
def make_plan (name tagline : String) (pct : ℤ × ℤ × ℤ) (protein_g : ℤ) :
    MealSuggestion :=
  let p_pct := pct.1
  let c_pct := pct.2.1
  let f_pct := pct.2.2
  let total_kcal : ℚ := ((protein_g : ℚ) * 4) / ((p_pct : ℚ) / 100)
  let carbs_g : ℚ := total_kcal * ((c_pct : ℚ) / 100) / 4
  let fats_g : ℚ := total_kcal * ((f_pct : ℚ) / 100) / 9
  { name := name
    tagline := tagline
    macros :=
      { protein_g := round5 (protein_g : ℚ)
        carbs_g := round5 carbs_g
        fats_g := round5 fats_g
        split_percent := (p_pct, c_pct, f_pct)
        calories := rnd total_kcal }
    sample_meals := baseMeals name }

/-- Unit conversion from `calculate_protein` line 133:
`weight if unit == "kg" else weight * 0.45359237`. -/
def weightToKg (req : ProteinRequest) : ℚ :=
  match req.unit with
  | .kg => req.weight
  | .lb => req.weight * (45359237 / 100000000)

/-- Base protein range by activity (lines 136-141). -/
def baseRange : Activity → ℚ × ℚ
  | .low => (12/10, 16/10)
  | .moderate => (16/10, 2)
  | .high => (18/10, 22/10)

/-- Goal adjustment to the base range (lines 144-149): fat loss adds
0.2 to both bounds, muscle gain adds 0.1, maintenance adds nothing. -/
def adjustedRange (act : Activity) (g : Goal) : ℚ × ℚ :=
  let b := baseRange act
  match g with
  | .fat_loss => (b.1 + 2/10, b.2 + 2/10)
  | .muscle_gain => (b.1 + 1/10, b.2 + 1/10)
  | .maintenance => (b.1, b.2)

/-- The clamped range (lines 152-153):
`min_gkg = max(1.2, round(base_min, 2))`,
`max_gkg = min(2.7, round(base_max, 2))`. -/
def rangeGkg (act : Activity) (g : Goal) : ℚ × ℚ :=
  let b := adjustedRange act g
  (max (12/10) (round2 b.1), min (27/10) (round2 b.2))

/-- `daily_min = int(round(min_gkg * weight_kg))` (line 155). -/
def daily_min (min_gkg weight_kg : ℚ) : ℤ := rnd (min_gkg * weight_kg)

/-- `daily_max = int(round(max_gkg * weight_kg))` (line 156). -/
def daily_max (max_gkg weight_kg : ℚ) : ℤ := rnd (max_gkg * weight_kg)

/-- `target = int(round(((min_gkg + max_gkg) / 2.0) * weight_kg))`
(line 157). -/
def daily_target (min_gkg max_gkg weight_kg : ℚ) : ℤ :=
  rnd (((min_gkg + max_gkg) / 2) * weight_kg)

/-- Python's default string conversion of a float (as used by the
f-string on line 161, which has no format specifier), for the
nonnegative one-decimal values that `min_gkg`/`max_gkg` take in this
program: `str(1.6)` is `"1.6"`, `str(2.0)` is `"2.0"`. -/
def pyFloatStr (q : ℚ) : String :=
  let n := ⌊q * 10⌋
  toString (n / 10) ++ "." ++ toString (n % 10)

/-- The rationale f-string (lines 159-164): the bounds are interpolated
with Python's default float formatting (no format specifier). -/
def mkRationale (min_gkg max_gkg : ℚ) : String :=
  "Based on your activity and goal, a range of " ++ pyFloatStr min_gkg ++
    "-" ++ pyFloatStr max_gkg ++
    " g/kg is appropriate. " ++
    "Using your body weight, that translates to the amounts shown. " ++
    "Hitting the middle of the range is a practical daily target."

/-- The fixed archetype table (lines 168-173): name, tagline, base
percent split (protein, carbs, fat). -/
def archetypes : List (String × String × (ℤ × ℤ × ℤ)) :=
  [("Lifting Beast", "Build thick strength with steady carbs.", (30, 45, 25)),
   ("Mat Dominator", "Mat-ready power with cutting-edge leanness.", (35, 35, 30)),
   ("Track Rocket", "Explosive speed fueled by fast carbs.", (25, 50, 25)),
   ("Grand Tour Engine", "Endurance-first fuel for long days in the saddle.", (20, 60, 20))]

/-- `goal_adj = {"fat_loss": 5, "maintenance": 0, "muscle_gain": 0}`
and `p_bump = goal_adj.get(req.goal, 0)` (lines 176-177). -/
def goalBump : Goal → ℤ
  | .fat_loss => 5
  | .maintenance => 0
  | .muscle_gain => 0

/-- The per-archetype split adjustment (loop body, lines 180-189):
`adj_p = min(45, p + p_bump)`, `adj_c = max(30, c - p_bump)`; if the
sum differs from 100 the fat share becomes `max(20, f + (100 - sum))`. -/
def adjustSplit (bump : ℤ) (pct : ℤ × ℤ × ℤ) : ℤ × ℤ × ℤ :=
  let p := pct.1
  let c := pct.2.1
  let f := pct.2.2
  let adj_p := min 45 (p + bump)
  let adj_c := max 30 (c - bump)
  let total := adj_p + adj_c + f
  let f2 := if total ≠ 100 then max 20 (f + (100 - total)) else f
  (adj_p, adj_c, f2)

/-- The suggestion-building loop (lines 179-190) as a map over the
archetype table. -/
def mkSuggestions (g : Goal) (target_g : ℤ) : List MealSuggestion :=
  archetypes.map fun a =>
    make_plan a.1 a.2.1 (adjustSplit (goalBump g) a.2.2) target_g

/-- `calculate_protein` from `src/main.py` lines 130-200 (the handler of
`POST /api/protein`), on an already-validated request. -/
def calculate_protein (req : ProteinRequest) : ProteinResponse :=
  let weight_kg := weightToKg req
  let r := rangeGkg req.activity req.goal
  let min_gkg := r.1
  let max_gkg := r.2
  { weight_kg := round2 weight_kg
    grams_per_kg_range := (min_gkg, max_gkg)
    daily_grams_min := daily_min min_gkg weight_kg
    daily_grams_max := daily_max max_gkg weight_kg
    daily_grams_target := daily_target min_gkg max_gkg weight_kg
    rationale := mkRationale min_gkg max_gkg
    suggestions := mkSuggestions req.goal (daily_target min_gkg max_gkg weight_kg) }

/-- The worked example request of the spec: weight 80, unit kg,
activity moderate, goal maintenance. -/
def req80 : ProteinRequest :=
  ⟨80, .kg, .moderate, .maintenance, none, none⟩


/-- The first meal plan built by `calculate_protein` (the "Lifting
Beast" archetype), as a function of the request. -/
def plan0 (req : ProteinRequest) : MealSuggestion :=
  make_plan "Lifting Beast" "Build thick strength with steady carbs."
    (adjustSplit (goalBump req.goal) (30, 45, 25))
    (daily_target (rangeGkg req.activity req.goal).1 (rangeGkg req.activity req.goal).2
      (weightToKg req))

/-- Fixed two-decimal formatting of a nonnegative rational, as the
spec's words describe the rationale bounds (a bound of `1.6` rendered
`"1.60"`).  Used only to compare the spec's claim against the code. -/
def fmt2dec (q : ℚ) : String :=
  let n := ⌊q * 100⌋
  toString (n / 100) ++ "." ++ toString (n / 10 % 10) ++ toString (n % 10)

/-- The rationale as claim C4 describes it: the fixed template with
`min_gkg` and `max_gkg` formatted with exactly two decimal places. -/
def specRationale2dec (min_gkg max_gkg : ℚ) : String :=
  "Based on your activity and goal, a range of " ++ fmt2dec min_gkg ++
    "-" ++ fmt2dec max_gkg ++
    " g/kg is appropriate. " ++
    "Using your body weight, that translates to the amounts shown. " ++
    "Hitting the middle of the range is a practical daily target."

/-! ### Facts about the rounding functions -/

lemma floor_le_rnd (q : ℚ) : ⌊q⌋ ≤ rnd q := by
  unfold rnd
  split_ifs <;> omega

lemma rnd_le_floor_add_one (q : ℚ) : rnd q ≤ ⌊q⌋ + 1 := by
  unfold rnd
  split_ifs <;> omega

/-- Round-half-to-even is monotone. -/
lemma rnd_mono {x y : ℚ} (h : x ≤ y) : rnd x ≤ rnd y := by
  rcases lt_or_le ⌊x⌋ ⌊y⌋ with hf | hf
  · have h1 := rnd_le_floor_add_one x
    have h2 := floor_le_rnd y
    omega
  · have hfe : ⌊y⌋ = ⌊x⌋ := le_antisymm hf (Int.floor_mono h)
    unfold rnd
    rw [hfe]
    split_ifs <;> first | omega | linarith

/-- Evaluation of `rnd` below the midpoint. -/
lemma rnd_eq_low (q : ℚ) (n : ℤ) (hl : (n : ℚ) ≤ q) (hu : q < (n : ℚ) + 1/2) :
    rnd q = n := by
  have hf : ⌊q⌋ = n := Int.floor_eq_iff.2 ⟨hl, by linarith⟩
  unfold rnd
  rw [hf, if_pos (by linarith : q - (n : ℤ) < 1/2)]

/-- Evaluation of `rnd` above the midpoint. -/
lemma rnd_eq_high (q : ℚ) (n : ℤ) (hl : (n : ℚ) + 1/2 < q) (hu : q < (n : ℚ) + 1) :
    rnd q = n + 1 := by
  have hf : ⌊q⌋ = n := Int.floor_eq_iff.2 ⟨by linarith, hu⟩
  unfold rnd
  rw [hf, if_neg (not_lt.2 (by linarith : (1:ℚ)/2 ≤ q - (n : ℤ))),
    if_pos (by linarith : (1:ℚ)/2 < q - (n : ℤ))]

lemma rnd_intCast (n : ℤ) : rnd (n : ℚ) = n :=
  rnd_eq_low _ n le_rfl (by linarith)

/-- `rnd` commutes with adding an integer when the fractional part is
not exactly one half. -/
lemma rnd_intCast_add (n : ℤ) (x : ℚ) (h0 : 0 ≤ x) (h1 : x < 1) (h2 : x ≠ 1/2) :
    rnd ((n : ℚ) + x) = n + rnd x := by
  have hfx : ⌊x⌋ = 0 := Int.floor_eq_iff.2 ⟨by exact_mod_cast h0, by simpa using h1⟩
  have hf : ⌊(n : ℚ) + x⌋ = n := by
    rw [add_comm, Int.floor_add_int, hfx, zero_add]
  have hsub : (n : ℚ) + x - (n : ℤ) = x := by ring
  unfold rnd
  rw [hf, hfx, hsub]
  have hsub2 : x - ((0 : ℤ) : ℚ) = x := by push_cast; ring
  rw [hsub2]
  rcases lt_trichotomy x (1/2) with h | h | h
  · rw [if_pos h, if_pos h]
    omega
  · exact absurd h h2
  · rw [if_neg (not_lt.2 h.le), if_neg (not_lt.2 h.le), if_pos h, if_pos h]
    omega

lemma round5_dvd (x : ℚ) : 5 ∣ round5 x := dvd_mul_left 5 (rnd (x / 5))

/-- Rounding an integer to the nearest multiple of 5 moves it by at
most 2. -/
lemma round5_int_close (t : ℤ) : |round5 (t : ℚ) - t| ≤ 2 := by
  have hq : t = 5 * (t / 5) + t % 5 := by omega
  have hr0 : 0 ≤ t % 5 := by omega
  have hr5 : t % 5 < 5 := by omega
  have harg : (t : ℚ) / 5 = ((t / 5 : ℤ) : ℚ) + ((t % 5 : ℤ) : ℚ) / 5 := by
    rw [show ((t : ℚ)) = (((5 * (t / 5) + t % 5 : ℤ) : ℚ)) from by exact_mod_cast hq]
    push_cast
    ring
  unfold round5
  rw [harg]
  set r := t % 5 with hrdef
  interval_cases r
  · rw [rnd_intCast_add _ _ (by norm_num) (by norm_num) (by norm_num),
      rnd_eq_low _ 0 (by norm_num) (by norm_num)]
    rw [abs_le]
    constructor <;> omega
  · rw [rnd_intCast_add _ _ (by norm_num) (by norm_num) (by norm_num),
      rnd_eq_low _ 0 (by norm_num) (by norm_num)]
    rw [abs_le]
    constructor <;> omega
  · rw [rnd_intCast_add _ _ (by norm_num) (by norm_num) (by norm_num),
      rnd_eq_low _ 0 (by norm_num) (by norm_num)]
    rw [abs_le]
    constructor <;> omega
  · rw [rnd_intCast_add _ _ (by norm_num) (by norm_num) (by norm_num),
      rnd_eq_high _ 0 (by norm_num) (by norm_num)]
    rw [abs_le]
    constructor <;> omega
  · rw [rnd_intCast_add _ _ (by norm_num) (by norm_num) (by norm_num),
      rnd_eq_high _ 0 (by norm_num) (by norm_num)]
    rw [abs_le]
    constructor <;> omega

/-- `round(q, 2)` is the identity on exact multiples of one tenth. -/
lemma round2_tenths (m : ℤ) : round2 ((m : ℚ)/10) = (m : ℚ)/10 := by
  unfold round2
  rw [show ((m : ℚ)/10 * 100) = ((10 * m : ℤ) : ℚ) from by push_cast; ring, rnd_intCast]
  push_cast
  ring

/-! ### Evaluation of the clamped range on all nine activity/goal pairs -/

lemma rangeGkg_low_fat_loss :
    rangeGkg Activity.low Goal.fat_loss = (14/10, 18/10) := by
  have h1 : (adjustedRange Activity.low Goal.fat_loss).1 = ((14 : ℤ) : ℚ)/10 := by
    simp only [adjustedRange, baseRange]
    norm_num
  have h2 : (adjustedRange Activity.low Goal.fat_loss).2 = ((18 : ℤ) : ℚ)/10 := by
    simp only [adjustedRange, baseRange]
    norm_num
  show (max (12/10) (round2 (adjustedRange Activity.low Goal.fat_loss).1),
        min (27/10) (round2 (adjustedRange Activity.low Goal.fat_loss).2)) = _
  rw [h1, h2, round2_tenths, round2_tenths]
  norm_num [max_def, min_def, Prod.ext_iff]

lemma rangeGkg_low_maintenance :
    rangeGkg Activity.low Goal.maintenance = (12/10, 16/10) := by
  have h1 : (adjustedRange Activity.low Goal.maintenance).1 = ((12 : ℤ) : ℚ)/10 := by
    simp only [adjustedRange, baseRange]
    norm_num
  have h2 : (adjustedRange Activity.low Goal.maintenance).2 = ((16 : ℤ) : ℚ)/10 := by
    simp only [adjustedRange, baseRange]
    norm_num
  show (max (12/10) (round2 (adjustedRange Activity.low Goal.maintenance).1),
        min (27/10) (round2 (adjustedRange Activity.low Goal.maintenance).2)) = _
  rw [h1, h2, round2_tenths, round2_tenths]
  norm_num [max_def, min_def, Prod.ext_iff]

lemma rangeGkg_low_muscle_gain :
    rangeGkg Activity.low Goal.muscle_gain = (13/10, 17/10) := by
  have h1 : (adjustedRange Activity.low Goal.muscle_gain).1 = ((13 : ℤ) : ℚ)/10 := by
    simp only [adjustedRange, baseRange]
    norm_num
  have h2 : (adjustedRange Activity.low Goal.muscle_gain).2 = ((17 : ℤ) : ℚ)/10 := by
    simp only [adjustedRange, baseRange]
    norm_num
  show (max (12/10) (round2 (adjustedRange Activity.low Goal.muscle_gain).1),
        min (27/10) (round2 (adjustedRange Activity.low Goal.muscle_gain).2)) = _
  rw [h1, h2, round2_tenths, round2_tenths]
  norm_num [max_def, min_def, Prod.ext_iff]

lemma rangeGkg_moderate_fat_loss :
    rangeGkg Activity.moderate Goal.fat_loss = (18/10, 22/10) := by
  have h1 : (adjustedRange Activity.moderate Goal.fat_loss).1 = ((18 : ℤ) : ℚ)/10 := by
    simp only [adjustedRange, baseRange]
    norm_num
  have h2 : (adjustedRange Activity.moderate Goal.fat_loss).2 = ((22 : ℤ) : ℚ)/10 := by
    simp only [adjustedRange, baseRange]
    norm_num
  show (max (12/10) (round2 (adjustedRange Activity.moderate Goal.fat_loss).1),
        min (27/10) (round2 (adjustedRange Activity.moderate Goal.fat_loss).2)) = _
  rw [h1, h2, round2_tenths, round2_tenths]
  norm_num [max_def, min_def, Prod.ext_iff]

lemma rangeGkg_moderate_maintenance :
    rangeGkg Activity.moderate Goal.maintenance = (16/10, 20/10) := by
  have h1 : (adjustedRange Activity.moderate Goal.maintenance).1 = ((16 : ℤ) : ℚ)/10 := by
    simp only [adjustedRange, baseRange]
    norm_num
  have h2 : (adjustedRange Activity.moderate Goal.maintenance).2 = ((20 : ℤ) : ℚ)/10 := by
    simp only [adjustedRange, baseRange]
    norm_num
  show (max (12/10) (round2 (adjustedRange Activity.moderate Goal.maintenance).1),
        min (27/10) (round2 (adjustedRange Activity.moderate Goal.maintenance).2)) = _
  rw [h1, h2, round2_tenths, round2_tenths]
  norm_num [max_def, min_def, Prod.ext_iff]

lemma rangeGkg_moderate_muscle_gain :
    rangeGkg Activity.moderate Goal.muscle_gain = (17/10, 21/10) := by
  have h1 : (adjustedRange Activity.moderate Goal.muscle_gain).1 = ((17 : ℤ) : ℚ)/10 := by
    simp only [adjustedRange, baseRange]
    norm_num
  have h2 : (adjustedRange Activity.moderate Goal.muscle_gain).2 = ((21 : ℤ) : ℚ)/10 := by
    simp only [adjustedRange, baseRange]
    norm_num
  show (max (12/10) (round2 (adjustedRange Activity.moderate Goal.muscle_gain).1),
        min (27/10) (round2 (adjustedRange Activity.moderate Goal.muscle_gain).2)) = _
  rw [h1, h2, round2_tenths, round2_tenths]
  norm_num [max_def, min_def, Prod.ext_iff]

lemma rangeGkg_high_fat_loss :
    rangeGkg Activity.high Goal.fat_loss = (20/10, 24/10) := by
  have h1 : (adjustedRange Activity.high Goal.fat_loss).1 = ((20 : ℤ) : ℚ)/10 := by
    simp only [adjustedRange, baseRange]
    norm_num
  have h2 : (adjustedRange Activity.high Goal.fat_loss).2 = ((24 : ℤ) : ℚ)/10 := by
    simp only [adjustedRange, baseRange]
    norm_num
  show (max (12/10) (round2 (adjustedRange Activity.high Goal.fat_loss).1),
        min (27/10) (round2 (adjustedRange Activity.high Goal.fat_loss).2)) = _
  rw [h1, h2, round2_tenths, round2_tenths]
  norm_num [max_def, min_def, Prod.ext_iff]

lemma rangeGkg_high_maintenance :
    rangeGkg Activity.high Goal.maintenance = (18/10, 22/10) := by
  have h1 : (adjustedRange Activity.high Goal.maintenance).1 = ((18 : ℤ) : ℚ)/10 := by
    simp only [adjustedRange, baseRange]
    norm_num
  have h2 : (adjustedRange Activity.high Goal.maintenance).2 = ((22 : ℤ) : ℚ)/10 := by
    simp only [adjustedRange, baseRange]
    norm_num
  show (max (12/10) (round2 (adjustedRange Activity.high Goal.maintenance).1),
        min (27/10) (round2 (adjustedRange Activity.high Goal.maintenance).2)) = _
  rw [h1, h2, round2_tenths, round2_tenths]
  norm_num [max_def, min_def, Prod.ext_iff]

lemma rangeGkg_high_muscle_gain :
    rangeGkg Activity.high Goal.muscle_gain = (19/10, 23/10) := by
  have h1 : (adjustedRange Activity.high Goal.muscle_gain).1 = ((19 : ℤ) : ℚ)/10 := by
    simp only [adjustedRange, baseRange]
    norm_num
  have h2 : (adjustedRange Activity.high Goal.muscle_gain).2 = ((23 : ℤ) : ℚ)/10 := by
    simp only [adjustedRange, baseRange]
    norm_num
  show (max (12/10) (round2 (adjustedRange Activity.high Goal.muscle_gain).1),
        min (27/10) (round2 (adjustedRange Activity.high Goal.muscle_gain).2)) = _
  rw [h1, h2, round2_tenths, round2_tenths]
  norm_num [max_def, min_def, Prod.ext_iff]


/-! ### Structural lemmas about the pipeline -/

lemma suggestions_eq (req : ProteinRequest) :
    (calculate_protein req).suggestions =
      mkSuggestions req.goal
        (daily_target (rangeGkg req.activity req.goal).1
          (rangeGkg req.activity req.goal).2 (weightToKg req)) := rfl

lemma mem_suggestions (req : ProteinRequest) {s : MealSuggestion}
    (h : s ∈ (calculate_protein req).suggestions) :
    ∃ a ∈ archetypes,
      s = make_plan a.1 a.2.1 (adjustSplit (goalBump req.goal) a.2.2)
        (daily_target (rangeGkg req.activity req.goal).1
          (rangeGkg req.activity req.goal).2 (weightToKg req)) := by
  rw [suggestions_eq] at h
  unfold mkSuggestions at h
  obtain ⟨a, ha, rfl⟩ := List.mem_map.1 h
  exact ⟨a, ha, rfl⟩

lemma plan0_mem (req : ProteinRequest) :
    plan0 req ∈ (calculate_protein req).suggestions := by
  rw [suggestions_eq]
  unfold mkSuggestions plan0
  exact List.mem_map.2
    ⟨("Lifting Beast", "Build thick strength with steady carbs.", (30, 45, 25)),
      by simp [archetypes], rfl⟩

/-! ### Claim theorems -/

/-- C1: for every protein range with `min_gkg ≤ max_gkg` and every
positive body weight, the Target Resolver's outputs satisfy
`daily_min ≤ target ≤ daily_max`, each value rounded to the nearest
integer. -/
theorem target_resolver_ordered (min_gkg max_gkg weight_kg : ℚ)
    (hle : min_gkg ≤ max_gkg) (hw : 0 < weight_kg) :
    daily_min min_gkg weight_kg ≤ daily_target min_gkg max_gkg weight_kg ∧
    daily_target min_gkg max_gkg weight_kg ≤ daily_max max_gkg weight_kg := by
  constructor
  · exact rnd_mono (by nlinarith)
  · exact rnd_mono (by nlinarith)

/-- Witness for C1 at the range (1.6, 2.0) and weight 80 kg. -/
theorem target_resolver_ordered_witness :
    ((16/10 : ℚ) ≤ 2 ∧ (0 : ℚ) < 80) ∧
    (daily_min (16/10) 80 ≤ daily_target (16/10) 2 80 ∧
      daily_target (16/10) 2 80 ≤ daily_max 2 80) :=
  ⟨⟨by norm_num, by norm_num⟩,
    target_resolver_ordered (16/10) 2 80 (by norm_num) (by norm_num)⟩

/-- C2: on each of the nine activity/goal combinations the Range
Calculator yields `min_gkg ≤ max_gkg` with both bounds in
`[1.2, 2.7]`. -/
theorem range_calculator_bounds (act : Activity) (g : Goal) :
    (rangeGkg act g).1 ≤ (rangeGkg act g).2 ∧
    12/10 ≤ (rangeGkg act g).1 ∧ (rangeGkg act g).1 ≤ 27/10 ∧
    12/10 ≤ (rangeGkg act g).2 ∧ (rangeGkg act g).2 ≤ 27/10 := by
  cases act <;> cases g <;>
    simp only [rangeGkg_low_fat_loss, rangeGkg_low_maintenance,
      rangeGkg_low_muscle_gain, rangeGkg_moderate_fat_loss,
      rangeGkg_moderate_maintenance, rangeGkg_moderate_muscle_gain,
      rangeGkg_high_fat_loss, rangeGkg_high_maintenance,
      rangeGkg_high_muscle_gain] <;>
    norm_num

/-- C3: for every goal and every archetype of the fixed table, the
adjusted percent split sums to 100 (the fat-floor edge case never
fires on the fixed table, so no exception arises). -/
theorem plan_split_sums_to_100 (g : Goal) (a : String × String × (ℤ × ℤ × ℤ))
    (ha : a ∈ archetypes) :
    (adjustSplit (goalBump g) a.2.2).1 + (adjustSplit (goalBump g) a.2.2).2.1 +
      (adjustSplit (goalBump g) a.2.2).2.2 = 100 := by
  simp only [archetypes, List.mem_cons, List.not_mem_nil, or_false] at ha
  rcases ha with rfl | rfl | rfl | rfl <;> cases g <;> decide

/-- Witness for C3 at goal fat loss and the "Lifting Beast" archetype. -/
theorem plan_split_sums_to_100_witness :
    (("Lifting Beast", "Build thick strength with steady carbs.",
        ((30 : ℤ), (45 : ℤ), (25 : ℤ))) ∈ archetypes) ∧
    (adjustSplit (goalBump Goal.fat_loss)
        ("Lifting Beast", "Build thick strength with steady carbs.",
          ((30 : ℤ), (45 : ℤ), (25 : ℤ))).2.2).1 +
      (adjustSplit (goalBump Goal.fat_loss)
        ("Lifting Beast", "Build thick strength with steady carbs.",
          ((30 : ℤ), (45 : ℤ), (25 : ℤ))).2.2).2.1 +
      (adjustSplit (goalBump Goal.fat_loss)
        ("Lifting Beast", "Build thick strength with steady carbs.",
          ((30 : ℤ), (45 : ℤ), (25 : ℤ))).2.2).2.2 = 100 :=
  ⟨by decide, plan_split_sums_to_100 Goal.fat_loss
    ("Lifting Beast", "Build thick strength with steady carbs.",
      ((30 : ℤ), (45 : ℤ), (25 : ℤ))) (by decide)⟩

/-- C9: on the fixed table the fat-floor normalization branch is a
no-op (the pre-normalization sum is already 100), so the final split
always sums to exactly 100 and the simultaneous-clamp edge case never
occurs for any reachable input. -/
theorem split_edge_case_unreachable (g : Goal)
    (a : String × String × (ℤ × ℤ × ℤ)) (ha : a ∈ archetypes) :
    adjustSplit (goalBump g) a.2.2 =
      (min 45 (a.2.2.1 + goalBump g), max 30 (a.2.2.2.1 - goalBump g), a.2.2.2.2) ∧
    min 45 (a.2.2.1 + goalBump g) + max 30 (a.2.2.2.1 - goalBump g) + a.2.2.2.2 = 100 := by
  simp only [archetypes, List.mem_cons, List.not_mem_nil, or_false] at ha
  rcases ha with rfl | rfl | rfl | rfl <;> cases g <;> decide

/-- Witness for C9 at goal fat loss and the "Grand Tour Engine"
archetype (the row with the lowest fat share). -/
theorem split_edge_case_unreachable_witness :
    (("Grand Tour Engine", "Endurance-first fuel for long days in the saddle.",
        ((20 : ℤ), (60 : ℤ), (20 : ℤ))) ∈ archetypes) ∧
    (adjustSplit (goalBump Goal.fat_loss) ((20 : ℤ), (60 : ℤ), (20 : ℤ)) =
        (min 45 (20 + goalBump Goal.fat_loss), max 30 (60 - goalBump Goal.fat_loss), 20) ∧
      min 45 (20 + goalBump Goal.fat_loss) + max 30 (60 - goalBump Goal.fat_loss) + 20 = 100) :=
  ⟨by decide, split_edge_case_unreachable Goal.fat_loss
    ("Grand Tour Engine", "Endurance-first fuel for long days in the saddle.",
      ((20 : ℤ), (60 : ℤ), (20 : ℤ))) (by decide)⟩

/-- C5: the spec's worked example: weight 80 kg, moderate activity,
maintenance goal gives range (1.6, 2.0), daily minimum 128, daily
maximum 160 and target 144. -/
theorem example_80kg_moderate_maintenance :
    (calculate_protein req80).grams_per_kg_range = (16/10, 2) ∧
    (calculate_protein req80).daily_grams_min = 128 ∧
    (calculate_protein req80).daily_grams_max = 160 ∧
    (calculate_protein req80).daily_grams_target = 144 := by
  have hr : rangeGkg Activity.moderate Goal.maintenance = (16/10, 2) := by
    rw [rangeGkg_moderate_maintenance]
    norm_num
  refine ⟨?_, ?_, ?_, ?_⟩
  · show ((rangeGkg Activity.moderate Goal.maintenance).1,
      (rangeGkg Activity.moderate Goal.maintenance).2) = ((16 : ℚ)/10, (2 : ℚ))
    rw [hr]
  · show daily_min (rangeGkg Activity.moderate Goal.maintenance).1 (weightToKg req80) = 128
    rw [hr]
    show rnd ((16/10 : ℚ) * 80) = 128
    exact rnd_eq_low _ 128 (by norm_num) (by norm_num)
  · show daily_max (rangeGkg Activity.moderate Goal.maintenance).2 (weightToKg req80) = 160
    rw [hr]
    show rnd ((2 : ℚ) * 80) = 160
    exact rnd_eq_low _ 160 (by norm_num) (by norm_num)
  · show daily_target (rangeGkg Activity.moderate Goal.maintenance).1
      (rangeGkg Activity.moderate Goal.maintenance).2 (weightToKg req80) = 144
    rw [hr]
    show rnd ((((16/10 : ℚ) + 2) / 2) * 80) = 144
    exact rnd_eq_low _ 144 (by norm_num) (by norm_num)

/-- C8: with valid enum fields and a valid (or absent) age, request
construction succeeds exactly when `0 < weight ≤ 1000`, the check is on
the raw weight in its original unit (no conversion is involved in
`mkProteinRequest`), and a valid weight is stored unchanged. -/
theorem request_validation_iff (w : ℚ) (u : WeightUnit) (act : Activity)
    (g : Goal) (age : Option ℤ) (sx : Option Sex)
    (hage : validAge age = true) :
    (mkProteinRequest w u act g age sx).map ProteinRequest.weight =
      if 0 < w ∧ w ≤ 1000 then some w else none := by
  unfold mkProteinRequest
  split_ifs with h1 h2 h3 <;> simp_all

/-- Witness for C8 at weight 80 kg with no optional fields. -/
theorem request_validation_iff_witness :
    (validAge none = true) ∧
    ((mkProteinRequest 80 WeightUnit.kg Activity.moderate Goal.maintenance
        none none).map ProteinRequest.weight =
      if (0 : ℚ) < 80 ∧ (80 : ℚ) ≤ 1000 then some (80 : ℚ) else none) :=
  ⟨rfl, request_validation_iff 80 WeightUnit.kg Activity.moderate
    Goal.maintenance none none rfl⟩


/-- C6: every meal plan's protein, carb and fat gram values in the
response are multiples of 5 (each is produced by `_round5`, i.e. by
`round(value / 5) * 5`). -/
theorem macros_multiple_of_5 (req : ProteinRequest) (s : MealSuggestion)
    (h : s ∈ (calculate_protein req).suggestions) :
    5 ∣ s.macros.protein_g ∧ 5 ∣ s.macros.carbs_g ∧ 5 ∣ s.macros.fats_g := by
  obtain ⟨a, -, rfl⟩ := mem_suggestions req h
  exact ⟨round5_dvd _, round5_dvd _, round5_dvd _⟩

/-- Witness for C6 at the 80 kg example request and its first plan. -/
theorem macros_multiple_of_5_witness :
    (plan0 req80 ∈ (calculate_protein req80).suggestions) ∧
    (5 ∣ (plan0 req80).macros.protein_g ∧ 5 ∣ (plan0 req80).macros.carbs_g ∧
      5 ∣ (plan0 req80).macros.fats_g) :=
  ⟨plan0_mem req80, macros_multiple_of_5 req80 (plan0 req80) (plan0_mem req80)⟩

/-- C7: every plan of every response carries a strictly positive
protein percentage, so the divisor `p_pct / 100` of the
`total_kcal` formula is nonzero and the core computation (a total
function here by construction) never divides by zero. -/
theorem protein_pct_pos (req : ProteinRequest) (s : MealSuggestion)
    (h : s ∈ (calculate_protein req).suggestions) :
    0 < s.macros.split_percent.1 ∧
    ((s.macros.split_percent.1 : ℚ) / 100) ≠ 0 := by
  obtain ⟨w, u, act, g, age, sx⟩ := req
  obtain ⟨a, ha, rfl⟩ := mem_suggestions ⟨w, u, act, g, age, sx⟩ h
  have hp : 0 < (adjustSplit (goalBump g) a.2.2).1 := by
    simp only [archetypes, List.mem_cons, List.not_mem_nil, or_false] at ha
    rcases ha with rfl | rfl | rfl | rfl <;> cases g <;> decide
  exact ⟨hp, div_ne_zero (Int.cast_ne_zero.2 (ne_of_gt hp)) (by norm_num)⟩

/-- Witness for C7 at the 80 kg example request and its first plan. -/
theorem protein_pct_pos_witness :
    (plan0 req80 ∈ (calculate_protein req80).suggestions) ∧
    (0 < (plan0 req80).macros.split_percent.1 ∧
      (((plan0 req80).macros.split_percent.1 : ℚ) / 100) ≠ 0) :=
  ⟨plan0_mem req80, protein_pct_pos req80 (plan0 req80) (plan0_mem req80)⟩

/-- C10: every plan of a response reports the same protein grams,
namely the daily target rounded to the nearest multiple of 5, which is
within 2 grams of the target itself. -/
theorem plans_protein_is_round5_target (req : ProteinRequest) (s : MealSuggestion)
    (h : s ∈ (calculate_protein req).suggestions) :
    s.macros.protein_g = round5 ((calculate_protein req).daily_grams_target : ℚ) ∧
    |s.macros.protein_g - (calculate_protein req).daily_grams_target| ≤ 2 := by
  obtain ⟨a, -, rfl⟩ := mem_suggestions req h
  exact ⟨rfl, round5_int_close _⟩

/-- Witness for C10 at the 80 kg example request and its first plan. -/
theorem plans_protein_is_round5_target_witness :
    (plan0 req80 ∈ (calculate_protein req80).suggestions) ∧
    ((plan0 req80).macros.protein_g =
        round5 ((calculate_protein req80).daily_grams_target : ℚ) ∧
      |(plan0 req80).macros.protein_g - (calculate_protein req80).daily_grams_target| ≤ 2) :=
  ⟨plan0_mem req80,
    plans_protein_is_round5_target req80 (plan0 req80) (plan0_mem req80)⟩


lemma pyFloatStr_16_10 : pyFloatStr (16/10) = "1.6" := by
  have hf : ⌊(16/10 : ℚ) * 10⌋ = 16 := by
    rw [show ((16 : ℚ)/10 * 10) = ((16 : ℤ) : ℚ) from by norm_num]
    exact Int.floor_intCast 16
  show toString (⌊(16/10 : ℚ) * 10⌋ / 10) ++ "." ++
    toString (⌊(16/10 : ℚ) * 10⌋ % 10) = "1.6"
  rw [hf]
  rfl

lemma pyFloatStr_20_10 : pyFloatStr (20/10) = "2.0" := by
  have hf : ⌊(20/10 : ℚ) * 10⌋ = 20 := by
    rw [show ((20 : ℚ)/10 * 10) = ((20 : ℤ) : ℚ) from by norm_num]
    exact Int.floor_intCast 20
  show toString (⌊(20/10 : ℚ) * 10⌋ / 10) ++ "." ++
    toString (⌊(20/10 : ℚ) * 10⌋ % 10) = "2.0"
  rw [hf]
  rfl

lemma fmt2dec_16_10 : fmt2dec (16/10) = "1.60" := by
  have hf : ⌊(16/10 : ℚ) * 100⌋ = 160 := by
    rw [show ((16 : ℚ)/10 * 100) = ((160 : ℤ) : ℚ) from by norm_num]
    exact Int.floor_intCast 160
  show toString (⌊(16/10 : ℚ) * 100⌋ / 100) ++ "." ++
    toString (⌊(16/10 : ℚ) * 100⌋ / 10 % 10) ++
    toString (⌊(16/10 : ℚ) * 100⌋ % 10) = "1.60"
  rw [hf]
  rfl

lemma fmt2dec_2 : fmt2dec (2 : ℚ) = "2.00" := by
  have hf : ⌊(2 : ℚ) * 100⌋ = 200 := by
    rw [show ((2 : ℚ) * 100) = ((200 : ℤ) : ℚ) from by norm_num]
    exact Int.floor_intCast 200
  show toString (⌊(2 : ℚ) * 100⌋ / 100) ++ "." ++
    toString (⌊(2 : ℚ) * 100⌋ / 10 % 10) ++
    toString (⌊(2 : ℚ) * 100⌋ % 10) = "2.00"
  rw [hf]
  rfl

/-- C4 counterexample: at the 80 kg example request the computed range
is (1.6, 2.0), but the rationale interpolates the bounds with Python's
default float formatting ("1.6-2.0"), not with two decimal places
("1.60-2.00") as the claim states. -/
theorem rationale_not_two_decimal :
    (calculate_protein req80).rationale ≠ specRationale2dec (16/10) 2 := by
  have hrat : (calculate_protein req80).rationale = mkRationale (16/10) (20/10) := by
    show mkRationale (rangeGkg Activity.moderate Goal.maintenance).1
      (rangeGkg Activity.moderate Goal.maintenance).2 = mkRationale (16/10) (20/10)
    rw [rangeGkg_moderate_maintenance]
  rw [hrat]
  unfold mkRationale specRationale2dec
  rw [pyFloatStr_16_10, pyFloatStr_20_10, fmt2dec_16_10, fmt2dec_2]
  decide

/-- C4 (amended): for every request the rationale is the fixed template
embedding `min_gkg` and `max_gkg` in Python's default float formatting
(`str`, no format specifier), so a bound of 1.6 appears as "1.6" and
2.0 as "2.0". -/
theorem rationale_template (req : ProteinRequest) :
    (calculate_protein req).rationale =
      "Based on your activity and goal, a range of " ++
        pyFloatStr (rangeGkg req.activity req.goal).1 ++ "-" ++
        pyFloatStr (rangeGkg req.activity req.goal).2 ++
        " g/kg is appropriate. " ++
        "Using your body weight, that translates to the amounts shown. " ++
        "Hitting the middle of the range is a practical daily target." := rfl

end ProteinApp
